import Mathlib

/-!
Verification of the `AutoByteArray` scoped-access session from
`src/wrapper/objects/auto_byte_array.rs`.

The session wraps a raw pointer produced by the JNI `GetByteArrayElements`
call and guarantees a matching `ReleaseByteArrayElements` call at end of
scope.  We embed the session state as a structure, the JNI environment as a
record of (possibly failing) native operations, and each method of the
Rust `impl` block as a function returning the updated state together with
the list of native calls it emits and its `Result` value.  Raw pointers are
modelled as natural numbers with `0` standing for the null pointer.
-/

namespace JniModel

/-- Modelled from the spec: the `sys` constants module is not among the
sources.  The spec states the release call takes one of three fixed integer
mode codes; these are the standard JNI values.  `JNI_COMMIT` is the
commit-and-continue code passed by `commit`. -/
def JNI_COMMIT : Int := 1

/-- Modelled from the spec: the release-without-commit (abort) mode code. -/
def JNI_ABORT : Int := 2

/-- Modelled from the spec: the error taxonomy of `errors::*`, which is not
among the sources.  `NullPtr` is the acquisition error raised by the
constructor; `JavaException` stands for a failure reported by a native
environment call. -/
inductive Error where
  | NullPtr (msg : String)
  | JavaException
deriving DecidableEq

/-- Modelled from the spec: `release_mode.rs` is not among the sources.  The
code references `ReleaseMode::NoCopyBack` and converts the stored mode with
`as i32`; per the spec the variants map 1:1 onto the native integer codes
(commit-and-release = 0, release-without-commit = `JNI_ABORT`).  The
commit-and-continue code `JNI_COMMIT` is not a `ReleaseMode` variant: the
source passes it directly as the integer `sys::JNI_COMMIT`. -/
inductive ReleaseMode where
  | CopyBack
  | NoCopyBack
deriving DecidableEq

/-- The `as i32` conversion of a `ReleaseMode` value. -/
def ReleaseMode.toInt : ReleaseMode → Int
  | .CopyBack => 0
  | .NoCopyBack => JNI_ABORT

/-- One native call issued through the environment, as recorded in a trace.
Object handles and pointers are modelled as naturals. -/
inductive NativeCall where
  | releaseByteArrayElements (obj : Nat) (ptr : Nat) (mode : Int)
  | getArrayLength (obj : Nat)
deriving DecidableEq

/-- Modelled from the spec: the `JNIEnv` wrapper is not among the sources.
The session only uses two of its capabilities, each of which may fail:
`ReleaseByteArrayElements` (via the `jni_void_call!` macro, which surfaces a
pending exception as an error) and `get_array_length`. -/
structure JNIEnv where
  releaseByteArrayElements : Nat → Nat → Int → Except Error Unit
  getArrayLength : Nat → Except Error Int

/-- The `NonNull::new` smart constructor: `none` exactly on the null
pointer. -/
def NonNull.new (ptr : Nat) : Option Nat :=
  if ptr = 0 then none else some ptr

/-- The `AutoByteArray` session state: array handle `obj`, non-null data
pointer `ptr`, current release `mode`, the copy flag fixed at acquisition,
and the borrowed environment. -/
structure AutoByteArray where
  obj : Nat
  ptr : Nat
  mode : ReleaseMode
  is_copy : Bool
  env : JNIEnv

/-- `AutoByteArray::new`: fails with `Error::NullPtr` when the supplied
pointer is null (`NonNull::new(ptr).ok_or(...)?`), otherwise builds the
session from the given fields.  No native call is made. -/
def AutoByteArray.new (env : JNIEnv) (obj : Nat) (ptr : Nat)
    (mode : ReleaseMode) (is_copy : Bool) : Except Error AutoByteArray :=
  match NonNull.new ptr with
  | none => Except.error (Error.NullPtr ("Non-null ptr expected"))
  | some p => Except.ok { obj := obj, ptr := p, mode := mode, is_copy := is_copy, env := env }

/-- `AutoByteArray::as_ptr`: the wrapped pointer. -/
def AutoByteArray.as_ptr (a : AutoByteArray) : Nat :=
  a.ptr

/-- The `From<&AutoByteArray> for *mut jbyte` conversion, which calls
`as_ptr`. -/
def fromAutoByteArray (a : AutoByteArray) : Nat :=
  a.as_ptr

/-- `AutoByteArray::release_byte_array_elements`: issues one
`ReleaseByteArrayElements` native call with the given integer mode and
returns its result.  The Rust method takes `&mut self` but assigns no
field, so the state is returned unchanged. -/
def AutoByteArray.release_byte_array_elements (a : AutoByteArray) (mode : Int) :
    AutoByteArray × List NativeCall × Except Error Unit :=
  (a, [NativeCall.releaseByteArrayElements a.obj a.ptr mode],
    a.env.releaseByteArrayElements a.obj a.ptr mode)

/-- `AutoByteArray::commit`: `release_byte_array_elements(sys::JNI_COMMIT)`. -/
def AutoByteArray.commit (a : AutoByteArray) :
    AutoByteArray × List NativeCall × Except Error Unit :=
  a.release_byte_array_elements JNI_COMMIT

/-- `AutoByteArray::discard`: sets `self.mode = ReleaseMode::NoCopyBack`;
no native call. -/
def AutoByteArray.discard (a : AutoByteArray) : AutoByteArray :=
  { a with mode := ReleaseMode.NoCopyBack }

/-- `AutoByteArray::size`: delegates to `self.env.get_array_length(*self.obj)`. -/
def AutoByteArray.size (a : AutoByteArray) :
    List NativeCall × Except Error Int :=
  ([NativeCall.getArrayLength a.obj], a.env.getArrayLength a.obj)

/-- The `Drop` impl: one release call with `self.mode as i32`; an `Ok`
result is ignored and an `Err` is sent to the error log (second component),
never returned. -/
def AutoByteArray.drop (a : AutoByteArray) : List NativeCall × List Error :=
  let r := a.release_byte_array_elements a.mode.toInt
  match r.2.2 with
  | Except.ok _ => (r.2.1, [])
  | Except.error e => (r.2.1, [e])

/-- A caller-invoked operation during the session's lifetime (before the
scope-exit drop). -/
inductive SessionOp where
  | commitOp
  | discardOp
  | isCopyOp
  | sizeOp
deriving DecidableEq

/-- Run one caller-invoked operation: the updated session state and the
native calls it emits.  `is_copy` and `discard` emit none. -/
def stepOp (a : AutoByteArray) : SessionOp → AutoByteArray × List NativeCall
  | SessionOp.commitOp => ((a.commit).1, (a.commit).2.1)
  | SessionOp.discardOp => (a.discard, [])
  | SessionOp.isCopyOp => (a, [])
  | SessionOp.sizeOp => (a, (a.size).1)

/-- Run a list of caller-invoked operations in order, accumulating the
emitted native calls. -/
def runOps (a : AutoByteArray) : List SessionOp → AutoByteArray × List NativeCall
  | [] => (a, [])
  | op :: ops =>
    let s := stepOp a op
    let r := runOps s.1 ops
    (r.1, s.2 ++ r.2)

/-- The full native-call trace of a session lifetime: the caller-invoked
operations followed by the scope-exit drop. -/
def sessionTrace (a : AutoByteArray) (ops : List SessionOp) : List NativeCall :=
  let r := runOps a ops
  r.2 ++ ((r.1).drop).1

/-- Whether a native call is a `ReleaseByteArrayElements` call. -/
def NativeCall.isRelease : NativeCall → Bool
  | NativeCall.releaseByteArrayElements _ _ _ => true
  | NativeCall.getArrayLength _ => false

/-- Number of `ReleaseByteArrayElements` calls in a trace. -/
def countReleases (t : List NativeCall) : Nat :=
  (t.filter NativeCall.isRelease).length

/-- Whether a caller-invoked operation is a `commit()` call. -/
def SessionOp.isCommit : SessionOp → Bool
  | SessionOp.commitOp => true
  | _ => false

/-- Number of `commit()` calls in an operation list. -/
def countCommits (ops : List SessionOp) : Nat :=
  (ops.filter SessionOp.isCommit).length

/-- An environment whose native calls always succeed; arrays have length 4. -/
def env0 : JNIEnv :=
  { releaseByteArrayElements := fun _ _ _ => Except.ok ()
    getArrayLength := fun _ => Except.ok 4 }

/-- An environment whose native calls always fail with a pending
exception. -/
def envErr : JNIEnv :=
  { releaseByteArrayElements := fun _ _ _ => Except.error Error.JavaException
    getArrayLength := fun _ => Except.error Error.JavaException }

/-- A sample live session over `env0`: handle 1, pointer 5, `CopyBack`
mode, `is_copy = true`. -/
def sampleArr : AutoByteArray :=
  { obj := 1, ptr := 5, mode := ReleaseMode.CopyBack, is_copy := true, env := env0 }

/-- A sample live session over the always-failing environment. -/
def errArr : AutoByteArray :=
  { obj := 1, ptr := 5, mode := ReleaseMode.CopyBack, is_copy := true, env := envErr }

/- ## Helper lemmas -/

/-- Caller-invoked operations never change the array handle, the pointer,
the copy flag or the environment. -/
theorem runOps_fields (ops : List SessionOp) : ∀ a : AutoByteArray,
    ((runOps a ops).1).obj = a.obj ∧ ((runOps a ops).1).ptr = a.ptr ∧
    ((runOps a ops).1).is_copy = a.is_copy ∧ ((runOps a ops).1).env = a.env := by
  induction ops with
  | nil => intro a; exact ⟨rfl, rfl, rfl, rfl⟩
  | cons op ops ih =>
    intro a
    cases op <;>
      simpa [runOps, stepOp, AutoByteArray.commit,
        AutoByteArray.release_byte_array_elements, AutoByteArray.discard,
        AutoByteArray.size] using ih _

/-- A session whose mode is already `NoCopyBack` keeps that mode across any
caller-invoked operations. -/
theorem runOps_mode_stable (ops : List SessionOp) : ∀ a : AutoByteArray,
    a.mode = ReleaseMode.NoCopyBack →
    ((runOps a ops).1).mode = ReleaseMode.NoCopyBack := by
  induction ops with
  | nil => intro a h; exact h
  | cons op ops ih =>
    intro a h
    cases op <;>
      simp [runOps, stepOp, AutoByteArray.commit,
        AutoByteArray.release_byte_array_elements, AutoByteArray.discard,
        AutoByteArray.size] <;> exact ih _ (by simp [AutoByteArray.discard, h])

/-- After any operation list containing a `discard()`, the mode is
`NoCopyBack`. -/
theorem runOps_mode_discard (ops : List SessionOp) : ∀ a : AutoByteArray,
    SessionOp.discardOp ∈ ops →
    ((runOps a ops).1).mode = ReleaseMode.NoCopyBack := by
  induction ops with
  | nil => intro a h; cases h
  | cons op ops ih =>
    intro a h
    rcases List.mem_cons.1 h with h1 | h1
    · subst h1
      simp only [runOps, stepOp]
      exact runOps_mode_stable ops _ rfl
    · cases op <;>
        simp only [runOps, stepOp, AutoByteArray.commit,
          AutoByteArray.release_byte_array_elements, AutoByteArray.discard] <;>
        exact ih _ h1

/-- The caller-invoked part of the trace holds exactly one release call per
`commit()`. -/
theorem runOps_trace_releases (ops : List SessionOp) : ∀ a : AutoByteArray,
    countReleases (runOps a ops).2 = countCommits ops := by
  induction ops with
  | nil => intro a; rfl
  | cons op ops ih =>
    intro a
    cases op <;>
      simp [runOps, stepOp, countReleases, countCommits, List.filter_append,
        AutoByteArray.commit, AutoByteArray.release_byte_array_elements,
        AutoByteArray.size, AutoByteArray.discard, NativeCall.isRelease,
        SessionOp.isCommit] <;>
      simpa [countReleases, countCommits] using ih _

/-- The drop-time release call always names the handle, the pointer, and
the mode held at that instant, whether the environment call succeeds or
fails. -/
theorem drop_trace (b : AutoByteArray) :
    (b.drop).1 = [NativeCall.releaseByteArrayElements b.obj b.ptr b.mode.toInt] := by
  unfold AutoByteArray.drop AutoByteArray.release_byte_array_elements
  cases b.env.releaseByteArrayElements b.obj b.ptr b.mode.toInt <;> simp

/-- A successful `new` returns exactly the record built from its arguments,
and only on a non-null pointer. -/
theorem new_ok_fields (env : JNIEnv) (obj ptr : Nat) (mode : ReleaseMode) (ic : Bool)
    (a : AutoByteArray) (h : AutoByteArray.new env obj ptr mode ic = Except.ok a) :
    a = { obj := obj, ptr := ptr, mode := mode, is_copy := ic, env := env } ∧ ptr ≠ 0 := by
  unfold AutoByteArray.new NonNull.new at h
  by_cases hp : ptr = 0
  · simp [hp] at h
  · simp [hp] at h
    exact ⟨h.symm, hp⟩

/-- The state after any number of `commit()` calls is the starting state. -/
theorem runOps_commits_state (n : Nat) : ∀ a : AutoByteArray,
    (runOps a (List.replicate n SessionOp.commitOp)).1 = a := by
  induction n with
  | zero => intro a; rfl
  | succ n ih =>
    intro a
    simp only [List.replicate_succ, runOps, stepOp]
    exact ih a

/- ## Claim theorems -/

/-- C1, as stated, is false: `commit()` itself issues a
`ReleaseByteArrayElements` call, so a session on which `commit()` was
called once issues two release calls over its lifetime, not one.  Concrete
input: session over `env0` built by `new` with handle 1, pointer 5, mode
`CopyBack`, `is_copy = true`; one `commit()` then drop. -/
theorem C1_counterexample :
    AutoByteArray.new env0 1 5 ReleaseMode.CopyBack true = Except.ok sampleArr ∧
    countReleases (sessionTrace sampleArr [SessionOp.commitOp]) = 2 ∧
    countReleases (sessionTrace sampleArr [SessionOp.commitOp]) ≠ 1 := by
  refine ⟨rfl, rfl, ?_⟩
  decide

/-- C1 (amended): across a session's lifetime, the number of release calls
is exactly one plus the number of `commit()` calls — the drop issues exactly
one release call regardless of how many `commit()` or `discard()` calls
preceded it, and each `commit()` additionally issues one immediate release
call.  In particular a session on which `commit()` is never called issues
exactly one release call. -/
theorem C1_release_calls (a : AutoByteArray) (ops : List SessionOp) :
    countReleases (sessionTrace a ops) = countCommits ops + 1 := by
  have hdrop : ∀ b : AutoByteArray, countReleases ((b.drop).1) = 1 := by
    intro b
    unfold AutoByteArray.drop AutoByteArray.release_byte_array_elements
    cases b.env.releaseByteArrayElements b.obj b.ptr b.mode.toInt <;>
      simp [countReleases, NativeCall.isRelease]
  have h := runOps_trace_releases ops a
  unfold sessionTrace
  simp only [countReleases, List.filter_append, List.length_append] at h ⊢
  simp only [countReleases] at hdrop
  rw [h, hdrop]

/-- C2: constructing a session with a null pointer fails with the
null-pointer acquisition error and produces no session object; with any
non-null pointer it returns the session holding exactly that pointer (and
the other supplied fields). -/
theorem C2_null_pointer (env : JNIEnv) (obj ptr : Nat) (mode : ReleaseMode) (ic : Bool) :
    AutoByteArray.new env obj ptr mode ic =
      if ptr = 0 then Except.error (Error.NullPtr ("Non-null ptr expected"))
      else Except.ok { obj := obj, ptr := ptr, mode := mode, is_copy := ic, env := env } := by
  unfold AutoByteArray.new NonNull.new
  by_cases h : ptr = 0 <;> simp [h]

/-- C3: whenever `discard()` was called at least once before scope exit,
the drop-time release call uses the `NoCopyBack` (`JNI_ABORT`) mode code —
for every constructed mode, so the original mode never shows through. -/
theorem C3_discard_forces_abort (a : AutoByteArray) (ops : List SessionOp)
    (h : SessionOp.discardOp ∈ ops) :
    ((((runOps a ops).1).drop).1) =
      [NativeCall.releaseByteArrayElements a.obj a.ptr JNI_ABORT] := by
  have hm := runOps_mode_discard ops a h
  have hf := runOps_fields ops a
  rw [drop_trace, hm, hf.1, hf.2.1]
  rfl

/-- C3 witness: a concrete session constructed with `CopyBack` mode, one
`discard()`, then drop: the release call carries `JNI_ABORT`. -/
theorem C3_witness :
    ((((runOps sampleArr [SessionOp.discardOp]).1).drop).1) =
      [NativeCall.releaseByteArrayElements 1 5 JNI_ABORT] :=
  C3_discard_forces_abort sampleArr [SessionOp.discardOp] (by decide)

/-- C4: `commit()` issues exactly one immediate release call with the
`JNI_COMMIT` (commit-and-continue) mode code, and afterwards the session is
unchanged — in particular `as_ptr()` still returns the same pointer and the
session has not been finalized. -/
theorem C4_commit_immediate (a : AutoByteArray) :
    (a.commit).2.1 = [NativeCall.releaseByteArrayElements a.obj a.ptr JNI_COMMIT] ∧
    ((a.commit).1).as_ptr = a.as_ptr ∧
    (a.commit).1 = a :=
  ⟨rfl, rfl, rfl⟩

/-- C5: errors from the caller-invoked `commit()` and `size()` are returned
to the caller exactly as the environment reported them, while the drop
handler returns nothing: it always issues its release call, logs the error
when the environment fails, and logs nothing on success. -/
theorem C5_error_propagation (a : AutoByteArray) :
    (a.commit).2.2 = a.env.releaseByteArrayElements a.obj a.ptr JNI_COMMIT ∧
    (a.size).2 = a.env.getArrayLength a.obj ∧
    (a.drop).1 = [NativeCall.releaseByteArrayElements a.obj a.ptr a.mode.toInt] ∧
    (a.env.releaseByteArrayElements a.obj a.ptr a.mode.toInt = Except.ok () →
      (a.drop).2 = []) ∧
    (∀ e : Error, a.env.releaseByteArrayElements a.obj a.ptr a.mode.toInt = Except.error e →
      (a.drop).2 = [e]) := by
  refine ⟨rfl, rfl, drop_trace a, ?_, ?_⟩
  · intro h
    simp [AutoByteArray.drop, AutoByteArray.release_byte_array_elements, h]
  · intro e h
    simp [AutoByteArray.drop, AutoByteArray.release_byte_array_elements, h]

/-- C5 witness: over the always-succeeding environment the drop logs
nothing; over the always-failing environment it logs the reported error. -/
theorem C5_witness :
    (sampleArr.drop).2 = [] ∧ (errArr.drop).2 = [Error.JavaException] :=
  ⟨(C5_error_propagation sampleArr).2.2.2.1 rfl,
   (C5_error_propagation errArr).2.2.2.2 Error.JavaException rfl⟩

/-- C6: `is_copy()` returns exactly the flag supplied at construction, and
no sequence of caller-invoked operations changes it. -/
theorem C6_is_copy_fixed (env : JNIEnv) (obj ptr : Nat) (mode : ReleaseMode)
    (ic : Bool) (a : AutoByteArray)
    (h : AutoByteArray.new env obj ptr mode ic = Except.ok a) (ops : List SessionOp) :
    ((runOps a ops).1).is_copy = ic := by
  obtain ⟨ha, -⟩ := new_ok_fields env obj ptr mode ic a h
  rw [(runOps_fields ops a).2.2.1, ha]

/-- C6 witness: a session built with `is_copy = true`, after a `discard()`
and a `commit()`, still reports `true`. -/
theorem C6_witness :
    ((runOps sampleArr [SessionOp.discardOp, SessionOp.commitOp]).1).is_copy = true :=
  C6_is_copy_fixed env0 1 5 ReleaseMode.CopyBack true sampleArr rfl
    [SessionOp.discardOp, SessionOp.commitOp]

/-- C7: `discard()` performs no native call and mutates only the mode
field, setting it to `NoCopyBack` regardless of the copy flag; the handle,
pointer, copy flag and environment are unchanged. -/
theorem C7_discard_frame (a : AutoByteArray) :
    (a.discard).mode = ReleaseMode.NoCopyBack ∧
    (a.discard).obj = a.obj ∧ (a.discard).ptr = a.ptr ∧
    (a.discard).is_copy = a.is_copy ∧ (a.discard).env = a.env ∧
    (stepOp a SessionOp.discardOp).2 = [] :=
  ⟨rfl, rfl, rfl, rfl, rfl, rfl⟩

/-- C8: `size()` issues exactly the environment's array-length query on the
session's handle, returning the same length on success and the same error
on failure. -/
theorem C8_size_delegates (a : AutoByteArray) :
    (a.size).1 = [NativeCall.getArrayLength a.obj] ∧
    (∀ n : Int, a.env.getArrayLength a.obj = Except.ok n → (a.size).2 = Except.ok n) ∧
    (∀ e : Error, a.env.getArrayLength a.obj = Except.error e →
      (a.size).2 = Except.error e) := by
  refine ⟨rfl, ?_, ?_⟩ <;> intro x h <;> simpa [AutoByteArray.size] using h

/-- C8 witness: over `env0` (arrays of length 4) `size()` returns 4; over
the failing environment it returns the environment's error. -/
theorem C8_witness :
    (sampleArr.size).2 = Except.ok 4 ∧ (errArr.size).2 = Except.error Error.JavaException :=
  ⟨(C8_size_delegates sampleArr).2.1 4 rfl,
   (C8_size_delegates errArr).2.2 Error.JavaException rfl⟩

/-- C9: `commit()` leaves the release mode unchanged: after any number of
`commit()` calls the mode equals the starting mode, and the drop-time
release still uses that starting mode. -/
theorem C9_commit_preserves_mode (a : AutoByteArray) (n : Nat) :
    ((a.commit).1).mode = a.mode ∧
    ((runOps a (List.replicate n SessionOp.commitOp)).1).mode = a.mode ∧
    ((((runOps a (List.replicate n SessionOp.commitOp)).1).drop).1) =
      [NativeCall.releaseByteArrayElements a.obj a.ptr a.mode.toInt] := by
  refine ⟨rfl, ?_, ?_⟩
  · rw [runOps_commits_state]
  · rw [runOps_commits_state, drop_trace]

/-- C10: `as_ptr()` always returns the non-null pointer supplied at
construction, unchanged by any sequence of caller-invoked operations, and
the `From` conversion returns the same value as `as_ptr()`. -/
theorem C10_as_ptr_stable (env : JNIEnv) (obj ptr : Nat) (mode : ReleaseMode)
    (ic : Bool) (a : AutoByteArray)
    (h : AutoByteArray.new env obj ptr mode ic = Except.ok a) (ops : List SessionOp) :
    ptr ≠ 0 ∧ ((runOps a ops).1).as_ptr = ptr ∧
    fromAutoByteArray ((runOps a ops).1) = ((runOps a ops).1).as_ptr := by
  obtain ⟨ha, hp⟩ := new_ok_fields env obj ptr mode ic a h
  refine ⟨hp, ?_, rfl⟩
  rw [AutoByteArray.as_ptr, (runOps_fields ops a).2.1, ha]

/-- C10 witness: the sample session, after one call of each operation,
still exposes pointer 5 through both `as_ptr()` and the conversion. -/
theorem C10_witness :
    (5 : Nat) ≠ 0 ∧
    ((runOps sampleArr
      [SessionOp.commitOp, SessionOp.discardOp, SessionOp.isCopyOp, SessionOp.sizeOp]).1).as_ptr
        = 5 ∧
    fromAutoByteArray ((runOps sampleArr
      [SessionOp.commitOp, SessionOp.discardOp, SessionOp.isCopyOp, SessionOp.sizeOp]).1) =
      ((runOps sampleArr
        [SessionOp.commitOp, SessionOp.discardOp, SessionOp.isCopyOp, SessionOp.sizeOp]).1).as_ptr :=
  C10_as_ptr_stable env0 1 5 ReleaseMode.CopyBack true sampleArr rfl
    [SessionOp.commitOp, SessionOp.discardOp, SessionOp.isCopyOp, SessionOp.sizeOp]

end JniModel
